import Mathlib

/-!
Verification of the MineWatch change-detection core against its source.

The development shallowly embeds the Python modules under `backend/`:
geometry regions handed to the injected geometry provider (shapely) are
modelled as finite sets of grid cells, whose area is the cell count; this
realizes exactly the Boolean set algebra (intersection, union, difference,
emptiness, area monotonicity) that the source delegates to shapely.
Rationals stand for Python floats; the IEEE NaN/Infinity behaviour of the
index division is modelled explicitly by `FpVal`.
-/

namespace MineWatch

/-! ## Geometry provider model -/

/-- A cell of a planar grid; a geometry is a finite set of cells. -/
abbrev Cell := ℤ × ℤ

/-- Model of a shapely geometry: a finite region of grid cells. -/
abbrev Geom := Finset Cell

/-- Area of a region: the number of cells, as a rational. -/
def geomArea (g : Geom) : ℚ := g.card

/-- Model of shapely `a.intersects(b)`: the regions share a cell. -/
def geomIntersects (a b : Geom) : Bool := decide ((a ∩ b).Nonempty)

/-- Abstract geometry operations the boundary-breach rule delegates to the
injected geometry provider (`shapely.buffer` / `shapely.within`). -/
structure GeomOps where
  buffer : Geom → ℚ → Geom
  within : Geom → Geom → Bool

/-! ## Alert rules (backend/alert_rules.py)

`Zone`, `Alert`, the severity bucketing of `AlertRule._get_severity`, and the
four `evaluate` methods.  Message templates are carried verbatim; the numeric
`str.format` interpolation of the area into the title is elided since no
behaviour depends on the rendered text. -/

/-- A change detection zone (`Zone` dataclass). -/
structure Zone where
  zone_type : String
  area_ha : ℚ
  geometry : Geom
deriving DecidableEq

/-- A generated alert (`Alert` dataclass). -/
structure Alert where
  alert_type : String
  title : String
  description : String
  location : String
  severity : String
  geometry : Option Geom := none
deriving DecidableEq

/-- The `thresholds` sub-dictionary of a rule configuration; a key may be
absent. -/
structure Thresholds where
  high : Option ℚ := none
  medium : Option ℚ := none
  low : Option ℚ := none
deriving DecidableEq

/-- A rule configuration dictionary: the keys the rule classes read, each
optional exactly as a Python `dict.get` access is. -/
structure RuleConfig where
  enabled : Bool := true
  thresholds : Thresholds := {}
  min_area_ha : Option ℚ := none
  messages : List (String × String) := []
  description_template : Option String := none
  severity : Option String := none
  message : Option String := none
deriving DecidableEq

/-- The boundary data the boundary-breach rule reads from
`context["mine_area"]`. -/
structure MineArea where
  boundary : Option Geom := none
  buffer_km : ℚ := 2
deriving DecidableEq

/-- Evaluation context passed to the rules. -/
structure Context where
  mine_area : Option MineArea := none
  baseline_date : Option String := none
  latest_date : Option String := none
deriving DecidableEq

/-- One branch of the `elif` chain of `_get_severity`: the threshold key is
present and the area reaches it. -/
def thresholdMet (t : Option ℚ) (area : ℚ) : Bool :=
  match t with
  | some v => decide (area ≥ v)
  | none => false

/-- `AlertRule._get_severity`: bucket the area against the configured
thresholds, highest first; `none` when no bucket matches. -/
def getSeverity (t : Thresholds) (area : ℚ) : Option String :=
  if thresholdMet t.high area then some "high"
  else if thresholdMet t.medium area then some "medium"
  else if thresholdMet t.low area then some "low"
  else none

/-- Message template chosen for a severity, with the hardcoded fallback. -/
def chooseMessage (messages : List (String × String)) (sev fallback : String) : String :=
  match messages.lookup sev with
  | some m => m
  | none => fallback

/-- `VegetationLossRule.evaluate`. -/
def vegetationLossEvaluate (cfg : RuleConfig) (zone : Zone) (_ctx : Context) :
    Option Alert :=
  if !cfg.enabled || zone.zone_type != "vegetation_loss" then none
  else if zone.area_ha < cfg.min_area_ha.getD (2/10) then none
  else
    match getSeverity cfg.thresholds zone.area_ha with
    | none => none
    | some sev =>
      some { alert_type := "vegetation_loss"
             title := chooseMessage cfg.messages sev "Vegetation loss detected"
             description := cfg.description_template.getD "Vegetation loss detected"
             location := "Site Assessment Zone"
             severity := sev
             geometry := some zone.geometry }

/-- `MiningExpansionRule.evaluate`. -/
def miningExpansionEvaluate (cfg : RuleConfig) (zone : Zone) (_ctx : Context) :
    Option Alert :=
  if !cfg.enabled || zone.zone_type != "mining_expansion" then none
  else if zone.area_ha < cfg.min_area_ha.getD (1/20) then none
  else
    match getSeverity cfg.thresholds zone.area_ha with
    | none => none
    | some sev =>
      some { alert_type := "excavation_alert"
             title := chooseMessage cfg.messages sev "Mining expansion detected"
             description := cfg.description_template.getD "Mining expansion detected"
             location := "Active Operations Zone"
             severity := sev
             geometry := some zone.geometry }

/-- `WaterAccumulationRule.evaluate`; when no threshold bucket matches, the
severity defaults to low instead of suppressing the alert. -/
def waterAccumulationEvaluate (cfg : RuleConfig) (zone : Zone) (_ctx : Context) :
    Option Alert :=
  if !cfg.enabled || zone.zone_type != "water_accumulation" then none
  else if zone.area_ha < cfg.min_area_ha.getD (1/20) then none
  else
    let sev := (getSeverity cfg.thresholds zone.area_ha).getD "low"
    some { alert_type := "water_warning"
           title := chooseMessage cfg.messages sev "Water accumulation detected"
           description := cfg.description_template.getD "Water accumulation detected"
           location := "Drainage Area"
           severity := sev
           geometry := some zone.geometry }

/-- `BoundaryBreachRule.evaluate`: ignores `zone_type` and `min_area_ha`;
buffers the AOI boundary by `buffer_km / 111` degrees through the injected
geometry provider and alerts when the zone is not within the buffer. -/
def boundaryBreachEvaluate (ops : GeomOps) (cfg : RuleConfig) (zone : Zone)
    (ctx : Context) : Option Alert :=
  if !cfg.enabled then none
  else
    match ctx.mine_area with
    | none => none
    | some ma =>
      match ma.boundary with
      | none => none
      | some boundary =>
        let bufferDegrees := ma.buffer_km / 111
        let buffered := ops.buffer boundary bufferDegrees
        if !(ops.within zone.geometry buffered) then
          some { alert_type := "boundary_breach"
                 title := cfg.message.getD "Unauthorized activity detected outside lease boundary"
                 description := cfg.description_template.getD "Activity detected outside approved boundary"
                 location := "Boundary Perimeter"
                 severity := cfg.severity.getD "high"
                 geometry := some zone.geometry }
        else none


/-- A concrete instance of the injected geometry provider over the cell model:
containment models shapely `within`, and the buffer of the instances used
below leaves the region unchanged (a 2 km, about 0.018 degree, buffer of one
cell at the origin does not reach a zone one hundred cells away). -/
def cellOps : GeomOps where
  buffer := fun g _ => g
  within := fun a b => decide (a ⊆ b)

/-! ## Spectral indices (backend/utils/spatial.py)

`calculate_ndvi`, `calculate_ndwi`, `calculate_bsi`: elementwise band
algebra.  The IEEE behaviour of the numpy division is modelled by `FpVal`:
division by zero produces NaN (for a zero numerator) or a signed infinity,
and `np.nan_to_num` then replaces every non-finite value with 0. -/

/-- Value of one numpy float pixel right after a division: finite, NaN, or a
signed infinity. -/
inductive FpVal where
  | fin (q : ℚ)
  | nan
  | pinf
  | ninf
deriving DecidableEq

/-- IEEE division of finite operands: `0/0` is NaN, `x/0` a signed
infinity, anything else finite. -/
def fpDiv (num den : ℚ) : FpVal :=
  if den = 0 then
    if num = 0 then .nan else if num > 0 then .pinf else .ninf
  else .fin (num / den)

/-- Model of `np.nan_to_num(x, nan=0.0, posinf=0.0, neginf=0.0)`. -/
def nanToNum : FpVal → ℚ
  | .fin q => q
  | .nan => 0
  | .pinf => 0
  | .ninf => 0

/-- One pixel of `calculate_ndvi`: `(nir - red) / (nir + red)` cleaned up. -/
def ndviPixel (red nir : ℚ) : ℚ := nanToNum (fpDiv (nir - red) (nir + red))

/-- One pixel of `calculate_ndwi`: `(green - nir) / (green + nir)` cleaned
up. -/
def ndwiPixel (green nir : ℚ) : ℚ := nanToNum (fpDiv (green - nir) (green + nir))

/-- One pixel of `calculate_bsi`:
`((swir + red) - (nir + blue)) / ((swir + red) + (nir + blue))` cleaned up. -/
def bsiPixel (red blue nir swir : ℚ) : ℚ :=
  nanToNum (fpDiv ((swir + red) - (nir + blue)) ((swir + red) + (nir + blue)))

/-- `calculate_ndvi` over flattened equal-shaped band arrays. -/
def calculate_ndvi : List ℚ → List ℚ → List ℚ
  | r :: rs, n :: ns => ndviPixel r n :: calculate_ndvi rs ns
  | _, _ => []

/-- `calculate_ndwi` over flattened equal-shaped band arrays. -/
def calculate_ndwi : List ℚ → List ℚ → List ℚ
  | g :: gs, n :: ns => ndwiPixel g n :: calculate_ndwi gs ns
  | _, _ => []

/-- `calculate_bsi` over flattened equal-shaped band arrays. -/
def calculate_bsi : List ℚ → List ℚ → List ℚ → List ℚ → List ℚ
  | r :: rs, b :: bs, n :: ns, s :: ss => bsiPixel r b n s :: calculate_bsi rs bs ns ss
  | _, _, _, _ => []

/-! ## Change detection and zone generation (analysis_pipeline.py, stage 5)

`ndvi_diff = l_ndvi - b_ndvi; veg_loss_mask = ndvi_diff < -0.15`,
`bsi_diff > 0.1`, `ndwi_diff > 0.2`; vectorized polygons are kept only when
their computed hectare area exceeds the per-type minimum. -/

/-- Vegetation-loss mask predicate for one pixel pair. -/
def vegLossPixel (bNdvi lNdvi : ℚ) : Bool := decide (lNdvi - bNdvi < -(15/100))

/-- Mining-expansion (bare-soil gain) mask predicate for one pixel pair. -/
def miningPixel (bBsi lBsi : ℚ) : Bool := decide (lBsi - bBsi > 1/10)

/-- Water-accumulation mask predicate for one pixel pair. -/
def waterPixel (bNdwi lNdwi : ℚ) : Bool := decide (lNdwi - bNdwi > 2/10)

/-- The vegetation-loss mask over flattened index arrays. -/
def vegLossMask : List ℚ → List ℚ → List Bool
  | b :: bs, l :: ls => vegLossPixel b l :: vegLossMask bs ls
  | _, _ => []

/-- The water-accumulation mask over flattened index arrays. -/
def waterMask : List ℚ → List ℚ → List Bool
  | b :: bs, l :: ls => waterPixel b l :: waterMask bs ls
  | _, _ => []

/-- A vectorized change polygon with its computed hectare area
(`_calculate_area`). -/
structure Feature where
  area_ha : ℚ
  geometry : Geom
deriving DecidableEq

/-- The per-type zone-generation loop: keep a feature only when its area
strictly exceeds the minimum, and wrap it into a `Zone`. -/
def zonesFromFeatures (ztype : String) (minArea : ℚ) (feats : List Feature) :
    List Zone :=
  (feats.filter (fun f => decide (minArea < f.area_ha))).map
    (fun f => ⟨ztype, f.area_ha, f.geometry⟩)

/-- Vegetation-loss zones: minimum area 0.1 ha. -/
def vegLossZones (feats : List Feature) : List Zone :=
  zonesFromFeatures "vegetation_loss" (1/10) feats

/-- Mining-expansion zones: minimum area 0.1 ha. -/
def miningZones (feats : List Feature) : List Zone :=
  zonesFromFeatures "mining_expansion" (1/10) feats

/-- Water-accumulation zones: minimum area 0.05 ha. -/
def waterZones (feats : List Feature) : List Zone :=
  zonesFromFeatures "water_accumulation" (1/20) feats

/-! ## Epoch coverage-set selection (backend/utils/temporal_grouping.py) -/

/-- The `CoverageSet` dataclass. -/
structure CoverageSet where
  epoch_time : String
  scene_ids : List ℤ
  scene_uris : List String
  coverage_percent : ℚ
deriving DecidableEq

/-- Errors `select_latest_two_sets` could raise; the taxonomy separates the
plain `ValueError` the code uses from the `InsufficientCoverageError` of
backend/exceptions.py so that statements can tell them apart. -/
inductive SelectSetsError where
  | valueError (msg : String)
  | insufficientCoverage (coveragePercent requiredPercent : ℚ) (sceneCount : ℕ)
deriving DecidableEq

/-- Whether an outcome is an `InsufficientCoverageError`. -/
def isInsufficientCoverageError {α : Type} : Except SelectSetsError α → Bool
  | .error (.insufficientCoverage _ _ _) => true
  | _ => false

/-- `select_latest_two_sets`: latest is the first set, baseline the second;
with fewer than two sets it raises `ValueError`. -/
def select_latest_two_sets (coverage_sets : List CoverageSet) :
    Except SelectSetsError (CoverageSet × CoverageSet) :=
  match coverage_sets with
  | a :: b :: _ => .ok (a, b)
  | _ => .error (.valueError "Insufficient complete temporal coverage sets (need at least 2)")

/-! ## Early validation of run_analysis (backend/analysis_pipeline.py)

Phase 1 of `run_analysis`, in source order: the database-connection
requirement, the presence check on `baseline_scene` / `latest_scene` /
`mine_area`, then the identical-scenes check on the two URIs.  Everything
after validation is abstracted as an arbitrary continuation `rest`, so that
theorems can show the validation outcome is independent of it. -/

/-- `VALIDATION_CONFIG["REQUIRE_DB_CONN"]` (backend/config.py). -/
def REQUIRE_DB_CONN : Bool := true

/-- The `ImageryScene` dataclass. -/
structure ImageryScene where
  id : ℤ
  source : String
  acquired_at : String
  cloud_cover : Option ℚ
  uri : Option String
deriving DecidableEq

/-- The closed error taxonomy raised during early validation. -/
inductive PipelineError where
  | databaseConnection (msg : String)
  | analysis (msg stage : String)
  | identicalScenes (sceneUri : Option String) (acquiredAt : String)
  | insufficientCoverage (coveragePercent requiredPercent : ℚ) (sceneCount : ℕ)
deriving DecidableEq

/-- Whether an outcome is an `IdenticalScenesError`. -/
def isIdenticalScenesError {α : Type} : Except PipelineError α → Bool
  | .error (.identicalScenes _ _) => true
  | _ => false

/-- Phase 1 of `run_analysis` (analysis_pipeline.py lines 411-436). -/
def validateAnalysisInputs (requireDbConn hasDbConn : Bool)
    (baseline_scene latest_scene : Option ImageryScene)
    (mine_area : Option MineArea) :
    Except PipelineError (ImageryScene × ImageryScene × MineArea) :=
  if requireDbConn && !hasDbConn then
    .error (.databaseConnection "Database connection required for production analysis")
  else
    match baseline_scene, latest_scene, mine_area with
    | some b, some l, some ma =>
      if b.uri = l.uri then .error (.identicalScenes b.uri b.acquired_at)
      else .ok (b, l, ma)
    | _, _, _ => .error (.analysis "Insufficient data for analysis" "validation")

/-- Output of a full analysis run. -/
abbrev AnalysisOutcome := List Zone × List Alert

/-- `run_analysis` as validation followed by the remaining stages, the
latter abstracted as a continuation. -/
def run_analysis_validated (requireDbConn hasDbConn : Bool)
    (baseline_scene latest_scene : Option ImageryScene)
    (mine_area : Option MineArea)
    (rest : ImageryScene × ImageryScene × MineArea → Except PipelineError AnalysisOutcome) :
    Except PipelineError AnalysisOutcome :=
  (validateAnalysisInputs requireDbConn hasDbConn baseline_scene latest_scene
    mine_area).bind rest

/-! ## Multi-scene band mosaicking (analysis_pipeline.py, _download_and_mosaic_bands)

The per-band result loop of `_download_and_mosaic_bands` (lines 352-374):
a successful, validated mosaic contributes its output path; any failed or
insufficiently covering band raises `MosaicError` with the band name and
the number of input scenes for that band.  `VALIDATE_POST_MOSAIC` is the
config flag of backend/config.py. -/

/-- `VALIDATION_CONFIG["VALIDATE_POST_MOSAIC"]` (backend/config.py). -/
def VALIDATE_POST_MOSAIC : Bool := true

/-- The fields of `CoverageResult` the loop reads. -/
structure CoverageResult where
  is_valid : Bool
  coverage_percent : ℚ
  message : String
deriving DecidableEq

/-- The `MosaicResult` dataclass of backend/utils/mosaicking.py. -/
structure MosaicResult where
  success : Bool
  output_path : Option String
  coverage_result : CoverageResult
  source_count : ℕ
  message : String
deriving DecidableEq

/-- The context `MosaicError` carries (backend/exceptions.py lines 108-145). -/
structure MosaicErrorInfo where
  message : String
  band_name : String
  scene_count : ℕ
deriving DecidableEq

/-- Python truthiness of the optional output path. -/
def pathTruthy : Option String → Bool
  | some p => p != ""
  | none => false

/-- One band entry passes the loop: built successfully with a truthy path,
and, when post-mosaic validation is on, with valid coverage. -/
def mosaicEntryOk (validatePostMosaic : Bool) (r : MosaicResult) : Bool :=
  r.success && pathTruthy r.output_path &&
    (!validatePostMosaic || r.coverage_result.is_valid)

/-- The result loop of `_download_and_mosaic_bands`: `bandPaths` maps each
band to the per-scene input paths collected for it; the first failing band
raises, otherwise every band contributes exactly its mosaic output path. -/
def collectMosaicPaths (validatePostMosaic : Bool)
    (bandPaths : List (String × List String)) :
    List (String × MosaicResult) → Except MosaicErrorInfo (List (String × String))
  | [] => .ok []
  | (band, r) :: rest =>
    let sceneCount := ((bandPaths.lookup band).getD []).length
    if r.success && pathTruthy r.output_path then
      if validatePostMosaic && !r.coverage_result.is_valid then
        .error ⟨"Mosaic has insufficient coverage", band, sceneCount⟩
      else
        match collectMosaicPaths validatePostMosaic bandPaths rest with
        | .ok tail => .ok ((band, r.output_path.getD "") :: tail)
        | .error e => .error e
    else
      .error ⟨"Failed to create mosaic for band", band, sceneCount⟩

/-! ## Raster alignment call shape (C1)

`clip_raster_to_geometry` as defined in backend/utils/spatial.py line 95
takes exactly two parameters and has no defaults or varargs, while the
stage-2 band reads of `run_analysis` (analysis_pipeline.py lines 629-645)
pass `target_shape` and `transform` as third and fourth positional
arguments.  The call shapes are embedded so the mismatch is provable. -/

/-- The parameter list of `clip_raster_to_geometry`
(backend/utils/spatial.py line 95). -/
def clipRasterToGeometryParams : List String := ["raster_path", "geojson_geometry"]

/-- A Python positional call is accepted exactly when the argument count
equals the parameter count (the callee has no defaults or varargs). -/
def pythonCallAccepted (params : List String) (argCount : ℕ) : Bool :=
  argCount == params.length

/-- The ten stage-2 clip calls of `run_analysis`, in source order, with the
number of positional arguments each passes (analysis_pipeline.py lines
629-645). -/
def stage2ClipCalls : List (String × ℕ) :=
  [("baseline B04", 2), ("baseline B08", 4), ("baseline B03", 4),
   ("baseline B02", 4), ("baseline B11", 4), ("latest B04", 4),
   ("latest B08", 4), ("latest B03", 4), ("latest B02", 4), ("latest B11", 4)]

/-! ## Greedy coverage resolver (_find_covering_scenes, analysis_pipeline.py 247-301)

The candidate loop keeps a running covered-geometry union over the boundary;
a candidate is skipped when it is too far from the target date, too cloudy
(Python truthiness: a null or zero cloud cover never skips), or disjoint
from the boundary; it is selected when it is the first scene or its
contribution minus the current union is non-empty; the loop stops once the
coverage percent reaches the minimum or the scene limit is hit.
`find_optimal_scenes` of backend/utils/coverage_validator.py has the same
selection core. -/

/-- One candidate row as the scene query returns it: `date_diff` is the
absolute day distance to the target date. -/
structure CandidateRow where
  id : ℤ
  uri : String
  footprint : Geom
  dateDiff : ℚ
  cloudCover : Option ℚ
deriving DecidableEq

/-- The skip conditions of the candidate loop, in source order. -/
def skipCandidate (maxDateDiff maxCloud : ℚ) (boundary : Geom)
    (r : CandidateRow) : Bool :=
  decide (r.dateDiff > maxDateDiff) ||
  (match r.cloudCover with
   | some c => decide (c ≠ 0) && decide (c > maxCloud)
   | none => false) ||
  !(geomIntersects boundary r.footprint)

/-- The loop state: selected scenes, the running covered union (absent
before the first selection), the last computed coverage percent, and
whether a break condition fired. -/
structure SelectState where
  selected : List (ℤ × String)
  covered : Option Geom
  coveragePercent : ℚ
  stopped : Bool
deriving DecidableEq

/-- State before the first iteration. -/
def initSelectState : SelectState := ⟨[], none, 0, false⟩

/-- The covered union as a region (empty before the first selection). -/
def coveredSet (st : SelectState) : Geom := st.covered.getD ∅

/-- Core of one non-skipped iteration: the new covered union and selected
list.  The first scene is always taken; later ones only when their
contribution minus the current union is non-empty. -/
def selectCore (boundary : Geom) (st : SelectState) (r : CandidateRow) :
    Geom × List (ℤ × String) :=
  match st.covered with
  | none => (boundary ∩ r.footprint, st.selected ++ [(r.id, r.uri)])
  | some g =>
    if ((boundary ∩ r.footprint) \ g).Nonempty then
      (g ∪ (boundary ∩ r.footprint), st.selected ++ [(r.id, r.uri)])
    else (g, st.selected)

/-- One iteration of the candidate loop: after processing a non-skipped
candidate the coverage percent is recomputed and the break conditions
(minimum coverage reached, scene limit reached) are checked. -/
def selectStep (boundary : Geom) (minCoverage maxDateDiff maxCloud : ℚ)
    (maxScenes : ℕ) (st : SelectState) (r : CandidateRow) : SelectState :=
  if st.stopped then st
  else if skipCandidate maxDateDiff maxCloud boundary r then st
  else
    { selected := (selectCore boundary st r).2
      covered := some (selectCore boundary st r).1
      coveragePercent := geomArea (selectCore boundary st r).1 / geomArea boundary * 100
      stopped :=
        decide (geomArea (selectCore boundary st r).1 / geomArea boundary * 100 ≥ minCoverage) ||
        decide ((selectCore boundary st r).2.length ≥ maxScenes) }

/-- `_find_covering_scenes`: an empty boundary returns immediately with
nothing selected, otherwise the candidate loop runs over the rows. -/
def findCoveringScenes (boundary : Geom) (minCoverage maxDateDiff maxCloud : ℚ)
    (maxScenes : ℕ) (rows : List CandidateRow) : SelectState :=
  if boundary = ∅ then initSelectState
  else rows.foldl (selectStep boundary minCoverage maxDateDiff maxCloud maxScenes)
    initSelectState

/-- Coverage a single candidate would give alone. -/
def soloCoverage (boundary : Geom) (r : CandidateRow) : ℚ :=
  geomArea (boundary ∩ r.footprint) / geomArea boundary * 100

/-- Reachable-state invariant of the candidate loop: before the first
selection the coverage is 0, afterwards the covered union is a subregion of
the boundary and the coverage percent is its area ratio. -/
def SelectInv (boundary : Geom) (st : SelectState) : Prop :=
  (st.covered = none ∧ st.coveragePercent = 0 ∧ st.selected = []) ∨
  (∃ g : Geom, st.covered = some g ∧ g ⊆ boundary ∧
    st.coveragePercent = geomArea g / geomArea boundary * 100)

/-- Test fixture: a two-cell boundary. -/
def exampleBoundary : Geom := {((0 : ℤ), (0 : ℤ)), ((0 : ℤ), (1 : ℤ))}

/-- Test fixture: a candidate covering the first boundary cell. -/
def exampleRowA : CandidateRow :=
  ⟨1, "scene-a", {((0 : ℤ), (0 : ℤ))}, 0, none⟩

/-- Test fixture: a candidate covering the second boundary cell. -/
def exampleRowB : CandidateRow :=
  ⟨2, "scene-b", {((0 : ℤ), (1 : ℤ))}, 1, some 10⟩

/-! ## Temporal epoch grouping (backend/utils/temporal_grouping.py)

The grouping loop of `build_coverage_sets`: rows arrive newest first (SQL
`ORDER BY acquired_at DESC`); a row is dropped when its cloud cover exceeds
the limit or its uri or footprint is missing; a retained scene joins the
current epoch when its time distance to the epoch anchor (the epoch's first
scene's timestamp) is within the tolerance, otherwise the current epoch is
flushed and the scene starts a new epoch with itself as anchor.
Timestamps are modelled in minutes. -/

/-- A scene row as the epoch-grouping query returns it. -/
structure EpochScene where
  id : ℤ
  uri : String
  acquiredAt : ℚ
  cloudCover : Option ℚ
  footprint : Option Geom
deriving DecidableEq

/-- Python truthiness of the optional footprint. -/
def footprintPresent : Option Geom → Bool
  | some _ => true
  | none => false

/-- The retention filter of the grouping loop, in source order: drop on
excessive cloud cover, missing uri, or missing footprint. -/
def retainScene (maxCloud : ℚ) (s : EpochScene) : Bool :=
  !(match s.cloudCover with
    | some c => decide (c > maxCloud)
    | none => false) &&
  !(s.uri == "") &&
  footprintPresent s.footprint

/-- Absolute value on the rationals by case split; evaluates by reduction
(the lemma `ratAbs_eq_abs` identifies it with the lattice absolute value). -/
def ratAbs (q : ℚ) : ℚ := if q < 0 then -q else q

/-- State of the grouping loop: finished epochs, the open epoch, and its
anchor timestamp. -/
structure EpochState where
  epochs : List (List EpochScene)
  current : List EpochScene
  anchor : Option ℚ
deriving DecidableEq

/-- State before the first row. -/
def initEpochState : EpochState := ⟨[], [], none⟩

/-- One iteration of the grouping loop. -/
def epochStep (tol maxCloud : ℚ) (st : EpochState) (s : EpochScene) : EpochState :=
  if !(retainScene maxCloud s) then st
  else
    match st.anchor with
    | none => ⟨st.epochs, [s], some s.acquiredAt⟩
    | some a =>
      if ratAbs (a - s.acquiredAt) ≤ tol then ⟨st.epochs, st.current ++ [s], st.anchor⟩
      else ⟨st.epochs ++ (if st.current.isEmpty then [] else [st.current]),
        [s], some s.acquiredAt⟩

/-- The epoch-grouping phase of `build_coverage_sets`: run the loop, then
flush the open epoch if non-empty. -/
def buildEpochs (tol maxCloud : ℚ) (rows : List EpochScene) :
    List (List EpochScene) :=
  let st := rows.foldl (epochStep tol maxCloud) initEpochState
  st.epochs ++ (if st.current.isEmpty then [] else [st.current])

/-- The anchor is the open epoch's first scene's timestamp (both absent
before the first retained scene). -/
def anchorMatches : Option ℚ → List EpochScene → Prop
  | none, [] => True
  | some a, h :: _ => a = h.acquiredAt
  | _, _ => False

/-- Every scene of an epoch is within the tolerance of the epoch's first
scene. -/
def epochTight (tol : ℚ) : List EpochScene → Prop
  | [] => True
  | h :: rest => ∀ s ∈ h :: rest, ratAbs (h.acquiredAt - s.acquiredAt) ≤ tol

/-- Loop invariant of the grouping loop. -/
def EpochInv (tol : ℚ) (st : EpochState) : Prop :=
  anchorMatches st.anchor st.current ∧ epochTight tol st.current ∧
  ∀ e ∈ st.epochs, epochTight tol e ∧ e ≠ []

/-- Test fixture: a scene at minute 0 of the spec example. -/
def sceneT0 : EpochScene := ⟨3, "scene-t0", 0, some 10, some ∅⟩

/-- Test fixture: a scene at minute 5 of the spec example. -/
def sceneT5 : EpochScene := ⟨2, "scene-t5", 5, some 10, some ∅⟩

/-- Test fixture: a scene at minute 40 of the spec example. -/
def sceneT40 : EpochScene := ⟨1, "scene-t40", 40, none, some ∅⟩

/-! ## Helper lemmas for the rule engine -/

lemma vegetationLoss_none_of_no_bucket (cfg : RuleConfig) (zone : Zone)
    (ctx : Context) (h : getSeverity cfg.thresholds zone.area_ha = none) :
    vegetationLossEvaluate cfg zone ctx = none := by
  unfold vegetationLossEvaluate
  rw [h]
  split <;> simp

lemma miningExpansion_none_of_no_bucket (cfg : RuleConfig) (zone : Zone)
    (ctx : Context) (h : getSeverity cfg.thresholds zone.area_ha = none) :
    miningExpansionEvaluate cfg zone ctx = none := by
  unfold miningExpansionEvaluate
  rw [h]
  split <;> simp

lemma waterAccumulation_some (cfg : RuleConfig) (zone : Zone) (ctx : Context)
    (hen : cfg.enabled = true)
    (hty : zone.zone_type = "water_accumulation")
    (hmin : cfg.min_area_ha.getD (1/20) ≤ zone.area_ha) :
    waterAccumulationEvaluate cfg zone ctx =
      some { alert_type := "water_warning"
             title := chooseMessage cfg.messages
               ((getSeverity cfg.thresholds zone.area_ha).getD "low")
               "Water accumulation detected"
             description := cfg.description_template.getD "Water accumulation detected"
             location := "Drainage Area"
             severity := (getSeverity cfg.thresholds zone.area_ha).getD "low"
             geometry := some zone.geometry } := by
  unfold waterAccumulationEvaluate
  split
  · rename_i hc
    rw [hen, hty] at hc
    simp at hc
  · split
    · rename_i hc2
      exact absurd hc2 (not_lt.mpr hmin)
    · rfl

lemma nanToNum_fpDiv_ratio_bounds (a b : ℚ) (ha : 0 ≤ a) (hb : 0 ≤ b) :
    -1 ≤ nanToNum (fpDiv (a - b) (a + b)) ∧ nanToNum (fpDiv (a - b) (a + b)) ≤ 1 := by
  unfold fpDiv
  split_ifs with h h1 h2
  · simp [nanToNum]
  · simp [nanToNum]
  · simp [nanToNum]
  · have hpos : 0 < a + b := lt_of_le_of_ne (by positivity) (Ne.symm h)
    refine ⟨?_, ?_⟩
    · show -1 ≤ (a - b) / (a + b)
      rw [le_div_iff hpos]
      linarith
    · show (a - b) / (a + b) ≤ 1
      rw [div_le_one hpos]
      linarith

lemma mem_calculate_ndvi {reds nirs : List ℚ} {x : ℚ}
    (hx : x ∈ calculate_ndvi reds nirs) :
    ∃ r ∈ reds, ∃ n ∈ nirs, x = ndviPixel r n := by
  induction reds generalizing nirs with
  | nil => simp [calculate_ndvi] at hx
  | cons r rs ih =>
    cases nirs with
    | nil => simp [calculate_ndvi] at hx
    | cons n ns =>
      rw [calculate_ndvi, List.mem_cons] at hx
      rcases hx with h | h
      · exact ⟨r, List.mem_cons_self .., n, List.mem_cons_self .., h⟩
      · obtain ⟨r', hr', n', hn', hx'⟩ := ih h
        exact ⟨r', List.mem_cons_of_mem _ hr', n', List.mem_cons_of_mem _ hn', hx'⟩

lemma mem_calculate_ndwi {greens nirs : List ℚ} {x : ℚ}
    (hx : x ∈ calculate_ndwi greens nirs) :
    ∃ g ∈ greens, ∃ n ∈ nirs, x = ndwiPixel g n := by
  induction greens generalizing nirs with
  | nil => simp [calculate_ndwi] at hx
  | cons g gs ih =>
    cases nirs with
    | nil => simp [calculate_ndwi] at hx
    | cons n ns =>
      rw [calculate_ndwi, List.mem_cons] at hx
      rcases hx with h | h
      · exact ⟨g, List.mem_cons_self .., n, List.mem_cons_self .., h⟩
      · obtain ⟨g', hg', n', hn', hx'⟩ := ih h
        exact ⟨g', List.mem_cons_of_mem _ hg', n', List.mem_cons_of_mem _ hn', hx'⟩

lemma mem_calculate_bsi {reds blues nirs swirs : List ℚ} {x : ℚ}
    (hx : x ∈ calculate_bsi reds blues nirs swirs) :
    ∃ r ∈ reds, ∃ b ∈ blues, ∃ n ∈ nirs, ∃ s ∈ swirs, x = bsiPixel r b n s := by
  induction reds generalizing blues nirs swirs with
  | nil => simp [calculate_bsi] at hx
  | cons r rs ih =>
    cases blues with
    | nil => simp [calculate_bsi] at hx
    | cons b bs =>
      cases nirs with
      | nil => simp [calculate_bsi] at hx
      | cons n ns =>
        cases swirs with
        | nil => simp [calculate_bsi] at hx
        | cons s ss =>
          rw [calculate_bsi, List.mem_cons] at hx
          rcases hx with h | h
          · exact ⟨r, List.mem_cons_self .., b, List.mem_cons_self ..,
              n, List.mem_cons_self .., s, List.mem_cons_self .., h⟩
          · obtain ⟨r', hr', b', hb', n', hn', s', hs', hx'⟩ := ih h
            exact ⟨r', List.mem_cons_of_mem _ hr', b', List.mem_cons_of_mem _ hb',
              n', List.mem_cons_of_mem _ hn', s', List.mem_cons_of_mem _ hs', hx'⟩

lemma not_mem_zonesFromFeatures (ztype : String) (minArea : ℚ)
    (feats : List Feature) (f : Feature) (hlt : f.area_ha < minArea) :
    (⟨ztype, f.area_ha, f.geometry⟩ : Zone) ∉ zonesFromFeatures ztype minArea feats := by
  intro hmem
  rw [zonesFromFeatures, List.mem_map] at hmem
  obtain ⟨g, hg, heq⟩ := hmem
  rw [List.mem_filter] at hg
  have harea : minArea < g.area_ha := of_decide_eq_true hg.2
  have : g.area_ha = f.area_ha := congrArg Zone.area_ha heq
  linarith

lemma collectMosaicPaths_ok (validate : Bool) (bandPaths : List (String × List String)) :
    ∀ (results : List (String × MosaicResult)) (paths : List (String × String)),
      collectMosaicPaths validate bandPaths results = .ok paths →
      paths = results.map (fun x => (x.1, x.2.output_path.getD "")) ∧
      ∀ x ∈ results, mosaicEntryOk validate x.2 = true := by
  intro results
  induction results with
  | nil =>
    intro paths h
    rw [collectMosaicPaths] at h
    cases h
    simp
  | cons x rest ih =>
    obtain ⟨band, r⟩ := x
    intro paths h
    rw [collectMosaicPaths] at h
    by_cases hsp : (r.success && pathTruthy r.output_path) = true
    · rw [if_pos hsp] at h
      by_cases hval : (validate && !r.coverage_result.is_valid) = true
      · rw [if_pos hval] at h
        cases h
      · rw [if_neg hval] at h
        cases hrec : collectMosaicPaths validate bandPaths rest with
        | ok tail =>
          rw [hrec] at h
          cases h
          obtain ⟨htail, hall⟩ := ih tail hrec
          refine ⟨by rw [htail]; rfl, ?_⟩
          intro y hy
          rcases List.mem_cons.mp hy with hy | hy
          · subst hy
            have hv : (!validate || r.coverage_result.is_valid) = true := by
              cases validate with
              | false => rfl
              | true =>
                have h' : r.coverage_result.is_valid = true := by
                  simpa using hval
                simp [h']
            simp [mosaicEntryOk, hsp, hv]
          · exact hall y hy
        | error e =>
          rw [hrec] at h
          cases h
    · rw [if_neg hsp] at h
      cases h

lemma collectMosaicPaths_error_first (validate : Bool)
    (bandPaths : List (String × List String)) (band : String) (r : MosaicResult) :
    ∀ (pre post : List (String × MosaicResult)),
      (∀ x ∈ pre, mosaicEntryOk validate x.2 = true) →
      mosaicEntryOk validate r = false →
      ∃ msg, collectMosaicPaths validate bandPaths (pre ++ (band, r) :: post) =
        .error ⟨msg, band, ((bandPaths.lookup band).getD []).length⟩ := by
  intro pre
  induction pre with
  | nil =>
    intro post _ hbad
    by_cases hsp : (r.success && pathTruthy r.output_path) = true
    · have hval : validate = true ∧ r.coverage_result.is_valid = false := by
        simp only [mosaicEntryOk, hsp, Bool.true_and, Bool.or_eq_false_iff,
          Bool.not_eq_false'] at hbad
        exact ⟨hbad.1, hbad.2⟩
      refine ⟨"Mosaic has insufficient coverage", ?_⟩
      simp only [List.nil_append]
      rw [collectMosaicPaths, if_pos hsp, if_pos (by simp [hval.1, hval.2])]
    · refine ⟨"Failed to create mosaic for band", ?_⟩
      simp only [List.nil_append]
      rw [collectMosaicPaths, if_neg hsp]
  | cons x xs ih =>
    intro post hpre hbad
    obtain ⟨b0, r0⟩ := x
    have hok := hpre (b0, r0) (List.mem_cons_self ..)
    have hsp : (r0.success && pathTruthy r0.output_path) = true := by
      simp only [mosaicEntryOk, Bool.and_eq_true] at hok
      simp [hok.1.1, hok.1.2]
    have hval : (validate && !r0.coverage_result.is_valid) = false := by
      simp only [mosaicEntryOk, Bool.and_eq_true] at hok
      rcases Bool.or_eq_true_iff.mp hok.2 with h' | h'
      · have hvf : validate = false := by simpa using h'
        simp [hvf]
      · simp [h']
    obtain ⟨msg, hmsg⟩ := ih post (fun y hy => hpre y (List.mem_cons_of_mem _ hy)) hbad
    refine ⟨msg, ?_⟩
    simp only [List.cons_append]
    rw [collectMosaicPaths, if_pos hsp, if_neg (by simp [hval]), hmsg]

lemma geomArea_mono {g h : Geom} (hs : g ⊆ h) : geomArea g ≤ geomArea h := by
  unfold geomArea
  exact_mod_cast Finset.card_le_card hs

lemma coverageRatio_nonneg (boundary g : Geom) :
    0 ≤ geomArea g / geomArea boundary * 100 := by
  unfold geomArea
  positivity

lemma coverageRatio_mono (boundary : Geom) {g h : Geom} (hs : g ⊆ h) :
    geomArea g / geomArea boundary * 100 ≤ geomArea h / geomArea boundary * 100 := by
  rcases eq_or_lt_of_le (show (0 : ℚ) ≤ geomArea boundary by unfold geomArea; positivity)
    with h0 | h0
  · rw [← h0]
    simp
  · exact mul_le_mul_of_nonneg_right ((div_le_div_right h0).mpr (geomArea_mono hs))
      (by norm_num)

lemma selectCore_covered_subset (boundary : Geom) (st : SelectState)
    (r : CandidateRow) (hsub : coveredSet st ⊆ boundary) :
    (selectCore boundary st r).1 ⊆ boundary := by
  cases hc : st.covered with
  | none =>
    simp only [selectCore, hc]
    exact Finset.inter_subset_left
  | some g =>
    have hg : g ⊆ boundary := by simpa [coveredSet, hc] using hsub
    simp only [selectCore, hc]
    split
    · exact Finset.union_subset hg Finset.inter_subset_left
    · exact hg

lemma coveredSet_subset_selectCore (boundary : Geom) (st : SelectState)
    (r : CandidateRow) : coveredSet st ⊆ (selectCore boundary st r).1 := by
  cases hc : st.covered with
  | none => simp [coveredSet, hc]
  | some g =>
    simp only [coveredSet, selectCore, hc, Option.getD_some]
    split
    · exact Finset.subset_union_left
    · exact Finset.Subset.refl g

lemma initSelectState_inv (boundary : Geom) : SelectInv boundary initSelectState :=
  Or.inl ⟨rfl, rfl, rfl⟩

lemma selectStep_inv (boundary : Geom) (minCoverage maxDateDiff maxCloud : ℚ)
    (maxScenes : ℕ) (st : SelectState) (r : CandidateRow)
    (hinv : SelectInv boundary st) :
    SelectInv boundary
      (selectStep boundary minCoverage maxDateDiff maxCloud maxScenes st r) := by
  unfold selectStep
  split
  · exact hinv
  split
  · exact hinv
  · right
    refine ⟨(selectCore boundary st r).1, rfl, ?_, rfl⟩
    apply selectCore_covered_subset
    rcases hinv with ⟨hc, _, _⟩ | ⟨g, hc, hsub, _⟩
    · simp [coveredSet, hc]
    · simpa [coveredSet, hc] using hsub

lemma selectStep_coverage_mono (boundary : Geom)
    (minCoverage maxDateDiff maxCloud : ℚ) (maxScenes : ℕ)
    (st : SelectState) (r : CandidateRow) (hinv : SelectInv boundary st) :
    st.coveragePercent ≤
      (selectStep boundary minCoverage maxDateDiff maxCloud maxScenes st r).coveragePercent := by
  unfold selectStep
  split
  · exact le_refl _
  split
  · exact le_refl _
  · show st.coveragePercent ≤ geomArea (selectCore boundary st r).1 / geomArea boundary * 100
    rcases hinv with ⟨hc, hp, _⟩ | ⟨g, hc, hsub, hp⟩
    · rw [hp]
      exact coverageRatio_nonneg boundary _
    · rw [hp]
      apply coverageRatio_mono
      have h := coveredSet_subset_selectCore boundary st r
      simpa [coveredSet, hc] using h

lemma foldl_selectStep_inv (boundary : Geom)
    (minCoverage maxDateDiff maxCloud : ℚ) (maxScenes : ℕ)
    (rows : List CandidateRow) (st : SelectState) (hinv : SelectInv boundary st) :
    SelectInv boundary
      (rows.foldl (selectStep boundary minCoverage maxDateDiff maxCloud maxScenes) st) := by
  induction rows generalizing st with
  | nil => exact hinv
  | cons r rs ih =>
    exact ih _ (selectStep_inv boundary minCoverage maxDateDiff maxCloud maxScenes st r hinv)

lemma foldl_selectStep_mono (boundary : Geom)
    (minCoverage maxDateDiff maxCloud : ℚ) (maxScenes : ℕ)
    (rows : List CandidateRow) (st : SelectState) (hinv : SelectInv boundary st) :
    st.coveragePercent ≤
      (rows.foldl (selectStep boundary minCoverage maxDateDiff maxCloud maxScenes) st).coveragePercent := by
  induction rows generalizing st with
  | nil => exact le_refl _
  | cons r rs ih =>
    exact le_trans
      (selectStep_coverage_mono boundary minCoverage maxDateDiff maxCloud maxScenes st r hinv)
      (ih _ (selectStep_inv boundary minCoverage maxDateDiff maxCloud maxScenes st r hinv))

lemma not_skip_intersects (boundary : Geom) (maxDateDiff maxCloud : ℚ)
    (r : CandidateRow) (h : ¬ skipCandidate maxDateDiff maxCloud boundary r = true) :
    (boundary ∩ r.footprint).Nonempty := by
  by_contra hne
  apply h
  unfold skipCandidate
  have : geomIntersects boundary r.footprint = false := by
    simp [geomIntersects, hne]
  simp [this]

lemma selectStep_selected_change (boundary : Geom)
    (minCoverage maxDateDiff maxCloud : ℚ) (maxScenes : ℕ)
    (st : SelectState) (r : CandidateRow)
    (hchg : (selectStep boundary minCoverage maxDateDiff maxCloud maxScenes st r).selected ≠ st.selected) :
    ((boundary ∩ r.footprint) \ coveredSet st).Nonempty := by
  unfold selectStep at hchg
  by_cases h1 : st.stopped = true
  · rw [if_pos h1] at hchg
    exact absurd rfl hchg
  rw [if_neg h1] at hchg
  by_cases h2 : skipCandidate maxDateDiff maxCloud boundary r = true
  · rw [if_pos h2] at hchg
    exact absurd rfl hchg
  rw [if_neg h2] at hchg
  cases hc : st.covered with
  | none =>
    have hne := not_skip_intersects boundary maxDateDiff maxCloud r h2
    simpa [coveredSet, hc, Finset.sdiff_empty] using hne
  | some g =>
    by_cases hne : ((boundary ∩ r.footprint) \ g).Nonempty
    · simpa [coveredSet, hc] using hne
    · exfalso
      apply hchg
      show (selectCore boundary st r).2 = st.selected
      simp only [selectCore, hc]
      rw [if_neg hne]

lemma selectStep_select_ge_solo (boundary : Geom)
    (minCoverage maxDateDiff maxCloud : ℚ) (maxScenes : ℕ)
    (st : SelectState) (r : CandidateRow)
    (hchg : (selectStep boundary minCoverage maxDateDiff maxCloud maxScenes st r).selected ≠ st.selected) :
    soloCoverage boundary r ≤
      (selectStep boundary minCoverage maxDateDiff maxCloud maxScenes st r).coveragePercent := by
  unfold selectStep at hchg ⊢
  by_cases h1 : st.stopped = true
  · rw [if_pos h1] at hchg
    exact absurd rfl hchg
  rw [if_neg h1] at hchg ⊢
  by_cases h2 : skipCandidate maxDateDiff maxCloud boundary r = true
  · rw [if_pos h2] at hchg
    exact absurd rfl hchg
  rw [if_neg h2] at hchg ⊢
  show soloCoverage boundary r ≤ geomArea (selectCore boundary st r).1 / geomArea boundary * 100
  unfold soloCoverage
  cases hc : st.covered with
  | none =>
    apply coverageRatio_mono
    simp only [selectCore, hc]
    exact Finset.Subset.refl _
  | some g =>
    by_cases hne : ((boundary ∩ r.footprint) \ g).Nonempty
    · apply coverageRatio_mono
      simp only [selectCore, hc]
      rw [if_pos hne]
      exact Finset.subset_union_right
    · exfalso
      apply hchg
      show (selectCore boundary st r).2 = st.selected
      simp only [selectCore, hc]
      rw [if_neg hne]

lemma ratAbs_eq_abs (q : ℚ) : ratAbs q = |q| := by
  unfold ratAbs
  split
  · rename_i hlt
    rw [abs_of_neg hlt]
  · rename_i hge
    rw [abs_of_nonneg (not_lt.mp hge)]

lemma ratAbs_self_sub (x : ℚ) : ratAbs (x - x) = 0 := by
  simp [ratAbs]

lemma epochStep_inv (tol maxCloud : ℚ) (htol : 0 ≤ tol) (st : EpochState)
    (s : EpochScene) (hinv : EpochInv tol st) :
    EpochInv tol (epochStep tol maxCloud st s) := by
  unfold epochStep
  split
  · exact hinv
  · obtain ⟨ham, htight, heps⟩ := hinv
    cases ha : st.anchor with
    | none =>
      dsimp only
      refine ⟨by simp [anchorMatches], ?_, heps⟩
      intro x hx
      have hxs : x = s := List.mem_singleton.mp hx
      subst hxs
      simpa [ratAbs_self_sub] using htol
    | some a =>
      dsimp only
      cases hc : st.current with
      | nil =>
        rw [ha, hc] at ham
        exact absurd ham (by simp [anchorMatches])
      | cons h rest =>
        have hah : a = h.acquiredAt := by
          rw [ha, hc] at ham
          exact ham
        rw [hc] at htight
        split
        · rename_i hle
          refine ⟨?_, ?_, heps⟩
          · rw [List.cons_append]
            exact hah
          · rw [List.cons_append]
            intro x hx
            rcases List.mem_cons.mp hx with rfl | hx
            · simpa [ratAbs_self_sub] using htol
            · rcases List.mem_append.mp hx with hx | hx
              · exact htight x (List.mem_cons_of_mem _ hx)
              · have hxs : x = s := List.mem_singleton.mp hx
                subst hxs
                rw [← hah]
                exact hle
        · refine ⟨by simp [anchorMatches], ?_, ?_⟩
          · intro x hx
            have hxs : x = s := List.mem_singleton.mp hx
            subst hxs
            simpa [ratAbs_self_sub] using htol
          · intro e he
            simp only [List.isEmpty_cons, Bool.false_eq_true, if_false] at he
            rcases List.mem_append.mp he with he | he
            · exact heps e he
            · have : e = h :: rest := List.mem_singleton.mp he
              subst this
              exact ⟨htight, by simp⟩

lemma initEpochState_inv (tol : ℚ) : EpochInv tol initEpochState :=
  ⟨trivial, trivial, by simp [initEpochState]⟩

lemma foldl_epochStep_inv (tol maxCloud : ℚ) (htol : 0 ≤ tol)
    (rows : List EpochScene) (st : EpochState) (hinv : EpochInv tol st) :
    EpochInv tol (rows.foldl (epochStep tol maxCloud) st) := by
  induction rows generalizing st with
  | nil => exact hinv
  | cons r rs ih => exact ih _ (epochStep_inv tol maxCloud htol st r hinv)

lemma buildEpochs_tight (tol maxCloud : ℚ) (htol : 0 ≤ tol)
    (rows : List EpochScene) :
    ∀ e ∈ buildEpochs tol maxCloud rows, epochTight tol e ∧ e ≠ [] := by
  intro e he
  obtain ⟨ham, htight, heps⟩ :=
    foldl_epochStep_inv tol maxCloud htol rows initEpochState (initEpochState_inv tol)
  unfold buildEpochs at he
  rcases List.mem_append.mp he with he | he
  · exact heps e he
  · rcases hc : (rows.foldl (epochStep tol maxCloud) initEpochState).current with
      _ | ⟨h, rest⟩
    · rw [hc] at he
      simp at he
    · rw [hc] at he
      simp only [List.isEmpty_cons, if_false, Bool.false_eq_true,
        List.mem_singleton] at he
      subst he
      rw [hc] at htight
      exact ⟨htight, by simp⟩

lemma retain_sceneT40 : retainScene 80 sceneT40 = true := by
  simp [retainScene, sceneT40, footprintPresent]

lemma retain_sceneT5 : retainScene 80 sceneT5 = true := by
  norm_num [retainScene, sceneT5, footprintPresent]
  decide

lemma retain_sceneT0 : retainScene 80 sceneT0 = true := by
  norm_num [retainScene, sceneT0, footprintPresent]
  decide

lemma ratAbs_40_5_gt : ¬ ratAbs ((40 : ℚ) - sceneT5.acquiredAt) ≤ 10 := by
  norm_num [ratAbs, sceneT5]

lemma ratAbs_5_0_le : ratAbs ((5 : ℚ) - sceneT0.acquiredAt) ≤ 10 := by
  norm_num [ratAbs, sceneT0]

lemma epochStep_example1 :
    epochStep 10 80 initEpochState sceneT40 =
      ⟨[], [sceneT40], some 40⟩ := by
  simp only [epochStep, retain_sceneT40, Bool.not_true, Bool.false_eq_true,
    if_false, initEpochState]
  simp [sceneT40]

lemma epochStep_example2 :
    epochStep 10 80 ⟨[], [sceneT40], some 40⟩ sceneT5 =
      ⟨[[sceneT40]], [sceneT5], some 5⟩ := by
  simp only [epochStep, retain_sceneT5, Bool.not_true, Bool.false_eq_true,
    if_false]
  rw [if_neg ratAbs_40_5_gt]
  simp [sceneT5]

lemma epochStep_example3 :
    epochStep 10 80 ⟨[[sceneT40]], [sceneT5], some 5⟩ sceneT0 =
      ⟨[[sceneT40]], [sceneT5, sceneT0], some 5⟩ := by
  simp only [epochStep, retain_sceneT0, Bool.not_true, Bool.false_eq_true,
    if_false]
  rw [if_pos ratAbs_5_0_le]
  rfl

lemma buildEpochs_example :
    buildEpochs 10 80 [sceneT40, sceneT5, sceneT0] =
      [[sceneT40], [sceneT5, sceneT0]] := by
  unfold buildEpochs
  rw [List.foldl_cons, epochStep_example1, List.foldl_cons, epochStep_example2,
    List.foldl_cons, epochStep_example3, List.foldl_nil]
  simp

end MineWatch

open MineWatch

/-- Claim C2 (corrected): for each zone-type-gated rule (vegetation loss,
mining expansion, water accumulation), a zone whose area is below the rule's
configured `min_area_ha` yields no alert, for every configuration and
context.  (The boundary-breach rule does not obey this: see the
counterexample.) -/
theorem C2_min_area_gates_typed_rules (cfg : RuleConfig) (zone : Zone)
    (ctx : Context) (m : ℚ) (hm : cfg.min_area_ha = some m)
    (h : zone.area_ha < m) :
    vegetationLossEvaluate cfg zone ctx = none ∧
    miningExpansionEvaluate cfg zone ctx = none ∧
    waterAccumulationEvaluate cfg zone ctx = none := by
  refine ⟨?_, ?_, ?_⟩
  · unfold vegetationLossEvaluate
    split
    · rfl
    · rw [hm, Option.getD_some, if_pos h]
  · unfold miningExpansionEvaluate
    split
    · rfl
    · rw [hm, Option.getD_some, if_pos h]
  · unfold waterAccumulationEvaluate
    split
    · rfl
    · rw [hm, Option.getD_some, if_pos h]

/-- Claim C2 witness: the spec's own instance, a 0.1 ha zone under a rule
with `min_area_ha` 0.2 yields no alert from any of the three typed rules. -/
theorem C2_min_area_gates_typed_rules_witness :
    vegetationLossEvaluate { min_area_ha := some (2/10) }
      { zone_type := "vegetation_loss", area_ha := 1/10, geometry := ∅ } {} = none ∧
    miningExpansionEvaluate { min_area_ha := some (2/10) }
      { zone_type := "vegetation_loss", area_ha := 1/10, geometry := ∅ } {} = none ∧
    waterAccumulationEvaluate { min_area_ha := some (2/10) }
      { zone_type := "vegetation_loss", area_ha := 1/10, geometry := ∅ } {} = none :=
  C2_min_area_gates_typed_rules _ _ _ (2/10) rfl (by norm_num)

/-- Claim C2 counterexample: `BoundaryBreachRule.evaluate` ignores
`min_area_ha`.  A rule configured with `min_area_ha` 0.2 still raises an
alert for a 0.1 ha zone lying outside the buffered boundary, so the claim as
stated over every rule of the engine is false. -/
theorem C2_boundary_breach_ignores_min_area :
    boundaryBreachEvaluate cellOps { min_area_ha := some (2/10) }
      { zone_type := "vegetation_loss", area_ha := 1/10,
        geometry := {((100 : ℤ), (100 : ℤ))} }
      { mine_area := some { boundary := some {((0 : ℤ), (0 : ℤ))} } } ≠ none := by
  decide

/-- Claim C10 (confirmed): an enabled water-accumulation rule always alerts
on a water zone meeting its minimum area; when no severity bucket matches,
the severity defaults to low, whereas the vegetation-loss and
mining-expansion rules return no alert when no bucket matches. -/
theorem C10_water_defaults_low (cfg : RuleConfig) (zone : Zone) (ctx : Context)
    (hen : cfg.enabled = true)
    (hty : zone.zone_type = "water_accumulation")
    (hmin : cfg.min_area_ha.getD (1/20) ≤ zone.area_ha) :
    (∃ a : Alert, waterAccumulationEvaluate cfg zone ctx = some a) ∧
    (getSeverity cfg.thresholds zone.area_ha = none →
      (waterAccumulationEvaluate cfg zone ctx).map Alert.severity = some "low") ∧
    (∀ (cfg2 : RuleConfig) (z2 : Zone) (c2 : Context),
      getSeverity cfg2.thresholds z2.area_ha = none →
        vegetationLossEvaluate cfg2 z2 c2 = none ∧
        miningExpansionEvaluate cfg2 z2 c2 = none) := by
  refine ⟨?_, ?_, ?_⟩
  · exact ⟨_, waterAccumulation_some cfg zone ctx hen hty hmin⟩
  · intro hsev
    rw [waterAccumulation_some cfg zone ctx hen hty hmin, hsev]
    rfl
  · intro cfg2 z2 c2 hsev
    exact ⟨vegetationLoss_none_of_no_bucket cfg2 z2 c2 hsev,
           miningExpansion_none_of_no_bucket cfg2 z2 c2 hsev⟩

/-- Claim C10 witness: a 1 ha water zone under an enabled rule with no
matching severity bucket yields an alert of severity low. -/
theorem C10_water_defaults_low_witness :
    (∃ a : Alert,
      waterAccumulationEvaluate { min_area_ha := some 0 }
        { zone_type := "water_accumulation", area_ha := 1, geometry := ∅ } {} = some a) ∧
    ((waterAccumulationEvaluate { min_area_ha := some 0 }
        { zone_type := "water_accumulation", area_ha := 1, geometry := ∅ } {}).map
        Alert.severity = some "low") :=
  have h := C10_water_defaults_low { min_area_ha := some 0 }
    { zone_type := "water_accumulation", area_ha := 1, geometry := ∅ } {}
    rfl rfl (by norm_num)
  ⟨h.1, h.2.1 rfl⟩

/-- Claim C4 (confirmed): the index calculators replace every non-finite
division result with 0 (so no NaN or infinity ever reaches the output, and a
0/0 pixel yields 0, in particular red = nir = 0 gives NDVI 0); every output
pixel lies in the range -1 to 1 when all inputs are non-negative; and
NDVI at red 100, nir 800 is exactly 700/900. -/
theorem C4_index_calculators
    (reds nirs greens blues swirs : List ℚ)
    (hr : ∀ v ∈ reds, 0 ≤ v) (hn : ∀ v ∈ nirs, 0 ≤ v)
    (hg : ∀ v ∈ greens, 0 ≤ v) (hb : ∀ v ∈ blues, 0 ≤ v)
    (hs : ∀ v ∈ swirs, 0 ≤ v) :
    (∀ num den : ℚ, nanToNum (fpDiv num den) = num / den ∨
      (nanToNum (fpDiv num den) = 0 ∧ fpDiv num den ≠ .fin (num / den))) ∧
    (∀ red nir : ℚ, nir + red = 0 → ndviPixel red nir = 0) ∧
    (ndviPixel 0 0 = 0) ∧
    (∀ green nir : ℚ, green + nir = 0 → ndwiPixel green nir = 0) ∧
    (∀ red blue nir swir : ℚ, (swir + red) + (nir + blue) = 0 →
      bsiPixel red blue nir swir = 0) ∧
    (∀ x ∈ calculate_ndvi reds nirs, -1 ≤ x ∧ x ≤ 1) ∧
    (∀ x ∈ calculate_ndwi greens nirs, -1 ≤ x ∧ x ≤ 1) ∧
    (∀ x ∈ calculate_bsi reds blues nirs swirs, -1 ≤ x ∧ x ≤ 1) ∧
    ndviPixel 100 800 = 700 / 900 := by
  have hclean : ∀ num den : ℚ, nanToNum (fpDiv num den) = num / den ∨
      (nanToNum (fpDiv num den) = 0 ∧ fpDiv num den ≠ .fin (num / den)) := by
    intro num den
    unfold fpDiv
    split_ifs with h h1 h2
    · exact .inr ⟨rfl, by simp⟩
    · exact .inr ⟨rfl, by simp⟩
    · exact .inr ⟨rfl, by simp⟩
    · exact .inl rfl
  have hzero : ∀ num den : ℚ, den = 0 → nanToNum (fpDiv num den) = 0 := by
    intro num den h
    unfold fpDiv
    split_ifs with h' h1 h2 <;> first | rfl | exact absurd h h'
  refine ⟨hclean, ?_, ?_, ?_, ?_, ?_, ?_, ?_, ?_⟩
  · intro red nir h
    exact hzero _ _ h
  · exact hzero _ _ (by norm_num)
  · intro green nir h
    exact hzero _ _ h
  · intro red blue nir swir h
    exact hzero _ _ h
  · intro x hx
    obtain ⟨r, hrm, n, hnm, rfl⟩ := mem_calculate_ndvi hx
    exact nanToNum_fpDiv_ratio_bounds n r (hn n hnm) (hr r hrm)
  · intro x hx
    obtain ⟨g, hgm, n, hnm, rfl⟩ := mem_calculate_ndwi hx
    exact nanToNum_fpDiv_ratio_bounds g n (hg g hgm) (hn n hnm)
  · intro x hx
    obtain ⟨r, hrm, b, hbm, n, hnm, s, hsm, rfl⟩ := mem_calculate_bsi hx
    exact nanToNum_fpDiv_ratio_bounds (s + r) (n + b)
      (by have := hs s hsm; have := hr r hrm; linarith)
      (by have := hn n hnm; have := hb b hbm; linarith)
  · unfold ndviPixel fpDiv nanToNum
    norm_num

/-- Claim C4 witness: the concrete bands red = [100, 0], nir = [800, 0]
are non-negative, and the bound and exact-value parts hold there. -/
theorem C4_index_calculators_witness :
    (∀ x ∈ calculate_ndvi [(100 : ℚ), 0] [(800 : ℚ), 0], -1 ≤ x ∧ x ≤ 1) ∧
    ndviPixel 100 800 = 700 / 900 :=
  have h := C4_index_calculators [100, 0] [800, 0] [] [] []
    (by norm_num) (by norm_num) (by simp) (by simp) (by simp)
  ⟨h.2.2.2.2.2.1, h.2.2.2.2.2.2.2.2⟩

/-- Claim C5 (confirmed): a pixel enters the vegetation-loss mask exactly
when baseline NDVI minus latest NDVI exceeds 0.15, and the
water-accumulation mask exactly when latest NDWI minus baseline NDWI
exceeds 0.20; a vectorized polygon whose computed area is below the
per-type minimum (0.1 ha for vegetation loss and mining expansion, 0.05 ha
for water accumulation) produces no Zone. -/
theorem C5_change_detection
    (b l : ℚ) (feats : List Feature) (f : Feature) (hf : f ∈ feats) :
    (vegLossPixel b l = true ↔ b - l > 15/100) ∧
    (waterPixel b l = true ↔ l - b > 2/10) ∧
    (f.area_ha < 1/10 →
      (⟨"vegetation_loss", f.area_ha, f.geometry⟩ : Zone) ∉ vegLossZones feats) ∧
    (f.area_ha < 1/10 →
      (⟨"mining_expansion", f.area_ha, f.geometry⟩ : Zone) ∉ miningZones feats) ∧
    (f.area_ha < 1/20 →
      (⟨"water_accumulation", f.area_ha, f.geometry⟩ : Zone) ∉ waterZones feats) := by
  refine ⟨?_, ?_, ?_, ?_, ?_⟩
  · rw [vegLossPixel, decide_eq_true_iff]
    constructor <;> (intro h; linarith)
  · simp [waterPixel]
  · intro hlt
    exact not_mem_zonesFromFeatures "vegetation_loss" (1/10) feats f hlt
  · intro hlt
    exact not_mem_zonesFromFeatures "mining_expansion" (1/10) feats f hlt
  · intro hlt
    exact not_mem_zonesFromFeatures "water_accumulation" (1/20) feats f hlt

/-- Claim C5 witness: at baseline NDVI 0.5 and latest NDVI 0.3 the pixel is
masked, and a 0.05 ha polygon yields no vegetation-loss zone. -/
theorem C5_change_detection_witness :
    vegLossPixel (5/10) (3/10) = true ∧
    (⟨"vegetation_loss", 1/20, (∅ : Geom)⟩ : Zone) ∉
      vegLossZones [⟨1/20, ∅⟩] :=
  have h := C5_change_detection (5/10) (3/10) [⟨1/20, ∅⟩] ⟨1/20, ∅⟩
    (List.mem_cons_self ..)
  ⟨h.1.mpr (by norm_num), h.2.2.1 (by norm_num)⟩

/-- Claim C8 counterexample: with fewer than two valid coverage sets,
`select_latest_two_sets` raises a plain `ValueError`, not
`InsufficientCoverageError`, so the claim as stated is false. -/
theorem C8_raises_value_error_not_insufficient :
    select_latest_two_sets [⟨"2024-01-02T10:00:00", [1], ["scene-a"], 96⟩] =
      .error (.valueError "Insufficient complete temporal coverage sets (need at least 2)") ∧
    isInsufficientCoverageError
      (select_latest_two_sets [⟨"2024-01-02T10:00:00", [1], ["scene-a"], 96⟩]) = false :=
  ⟨rfl, rfl⟩

/-- Claim C8 (corrected): with fewer than two valid coverage sets,
`select_latest_two_sets` raises `ValueError`; with at least two it returns
the first (newest) set as latest and the second as baseline. -/
theorem C8_select_latest_two_sets (sets : List CoverageSet) :
    (sets.length < 2 → ∃ msg, select_latest_two_sets sets = .error (.valueError msg)) ∧
    (∀ a b rest, sets = a :: b :: rest → select_latest_two_sets sets = .ok (a, b)) := by
  constructor
  · intro h
    match sets, h with
    | [], _ => exact ⟨_, rfl⟩
    | [a], _ => exact ⟨_, rfl⟩
    | a :: b :: rest, h => simp at h; omega
  · rintro a b rest rfl
    rfl

/-- Claim C8 witness: concrete instances of both branches. -/
theorem C8_select_latest_two_sets_witness :
    (∃ msg, select_latest_two_sets [] = .error (.valueError msg)) ∧
    select_latest_two_sets
      [⟨"2024-01-02T10:00:00", [1], ["scene-a"], 96⟩,
       ⟨"2024-01-01T10:00:00", [2], ["scene-b"], 97⟩] =
      .ok (⟨"2024-01-02T10:00:00", [1], ["scene-a"], 96⟩,
           ⟨"2024-01-01T10:00:00", [2], ["scene-b"], 97⟩) :=
  ⟨(C8_select_latest_two_sets []).1 (by norm_num),
   (C8_select_latest_two_sets _).2 _ _ [] rfl⟩

/-- Claim C3 counterexample: with the production configuration
(`REQUIRE_DB_CONN` true) and no database connection, identical baseline and
latest URIs raise `DatabaseConnectionError`, not `IdenticalScenesError` —
the identical-scenes check does not pre-empt all other work. -/
theorem C3_db_check_precedes_identical_check :
    run_analysis_validated REQUIRE_DB_CONN false
      (some ⟨1, "sentinel-2", "2024-01-01T10:00:00", some 5, some "scene-a"⟩)
      (some ⟨2, "sentinel-2", "2024-02-01T10:00:00", some 7, some "scene-a"⟩)
      (some { boundary := some ∅ }) (fun _ => .ok ([], [])) =
      .error (.databaseConnection "Database connection required for production analysis") ∧
    isIdenticalScenesError
      (run_analysis_validated REQUIRE_DB_CONN false
        (some ⟨1, "sentinel-2", "2024-01-01T10:00:00", some 5, some "scene-a"⟩)
        (some ⟨2, "sentinel-2", "2024-02-01T10:00:00", some 7, some "scene-a"⟩)
        (some { boundary := some ∅ }) (fun _ => .ok ([], []))) = false :=
  ⟨rfl, rfl⟩

/-- Claim C3 (corrected): once the database-connection requirement and the
presence checks on baseline scene, latest scene and mine area pass,
`run_analysis` raises `IdenticalScenesError` exactly when the two URIs are
equal, independent of every other field of the two scenes, and before any
further processing: the outcome does not depend on the rest of the
pipeline. -/
theorem C3_identical_scenes_gate (hasDbConn : Bool) (b l : ImageryScene)
    (ma : MineArea)
    (rest : ImageryScene × ImageryScene × MineArea → Except PipelineError AnalysisOutcome)
    (hdb : hasDbConn = true)
    (hrest : ∀ x, isIdenticalScenesError (rest x) = false) :
    (isIdenticalScenesError
        (run_analysis_validated REQUIRE_DB_CONN hasDbConn (some b) (some l)
          (some ma) rest) = true ↔ b.uri = l.uri) ∧
    (b.uri = l.uri →
      run_analysis_validated REQUIRE_DB_CONN hasDbConn (some b) (some l)
        (some ma) rest = .error (.identicalScenes b.uri b.acquired_at)) := by
  subst hdb
  by_cases h : b.uri = l.uri
  · have he : run_analysis_validated REQUIRE_DB_CONN true (some b) (some l)
        (some ma) rest = .error (.identicalScenes b.uri b.acquired_at) := by
      unfold run_analysis_validated validateAnalysisInputs REQUIRE_DB_CONN
      simp [h, Except.bind]
    rw [he]
    exact ⟨⟨fun _ => h, fun _ => rfl⟩, fun _ => rfl⟩
  · have he : run_analysis_validated REQUIRE_DB_CONN true (some b) (some l)
        (some ma) rest = rest (b, l, ma) := by
      unfold run_analysis_validated validateAnalysisInputs REQUIRE_DB_CONN
      simp [h, Except.bind]
    rw [he]
    exact ⟨⟨fun hid => absurd (hrest (b, l, ma)) (by simp [hid]),
      fun hu => absurd hu h⟩, fun hu => absurd hu h⟩

/-- Claim C3 witness: with a database connection present, two scenes that
differ in every other field but share the URI raise `IdenticalScenesError`,
and two scenes with different URIs do not. -/
theorem C3_identical_scenes_gate_witness :
    run_analysis_validated REQUIRE_DB_CONN true
      (some ⟨1, "sentinel-2", "2024-01-01T10:00:00", some 5, some "scene-a"⟩)
      (some ⟨2, "landsat-8", "2024-02-01T11:30:00", none, some "scene-a"⟩)
      (some { boundary := some ∅ }) (fun _ => .ok ([], [])) =
      .error (.identicalScenes (some "scene-a") "2024-01-01T10:00:00") ∧
    isIdenticalScenesError
      (run_analysis_validated REQUIRE_DB_CONN true
        (some ⟨1, "sentinel-2", "2024-01-01T10:00:00", some 5, some "scene-a"⟩)
        (some ⟨2, "landsat-8", "2024-02-01T11:30:00", none, some "scene-b"⟩)
        (some { boundary := some ∅ }) (fun _ => .ok ([], []))) = false :=
  have h1 := C3_identical_scenes_gate true
    ⟨1, "sentinel-2", "2024-01-01T10:00:00", some 5, some "scene-a"⟩
    ⟨2, "landsat-8", "2024-02-01T11:30:00", none, some "scene-a"⟩
    { boundary := some ∅ } (fun _ => .ok ([], [])) rfl (fun _ => rfl)
  have h2 := C3_identical_scenes_gate true
    ⟨1, "sentinel-2", "2024-01-01T10:00:00", some 5, some "scene-a"⟩
    ⟨2, "landsat-8", "2024-02-01T11:30:00", none, some "scene-b"⟩
    { boundary := some ∅ } (fun _ => .ok ([], [])) rfl (fun _ => rfl)
  ⟨h1.2 rfl, by
    cases hv : isIdenticalScenesError
      (run_analysis_validated REQUIRE_DB_CONN true
        (some ⟨1, "sentinel-2", "2024-01-01T10:00:00", some 5, some "scene-a"⟩)
        (some ⟨2, "landsat-8", "2024-02-01T11:30:00", none, some "scene-b"⟩)
        (some { boundary := some ∅ }) (fun _ => .ok ([], [])))
    · rfl
    · exact absurd (h2.1.mp hv) (by simp)⟩

/-- Claim C9 (confirmed): in the multi-scene result loop, the first band
whose mosaic failed to build (or, with post-mosaic validation enabled,
failed coverage validation) raises `MosaicError` carrying that band's name
and the number of input scenes collected for that band; and whenever the
loop succeeds, every band passed and the returned paths are exactly the
mosaic outputs — no fallback path is ever substituted. -/
theorem C9_mosaic_failure_raises (bandPaths : List (String × List String))
    (pre post : List (String × MosaicResult)) (band : String) (r : MosaicResult)
    (hpre : ∀ x ∈ pre, mosaicEntryOk VALIDATE_POST_MOSAIC x.2 = true)
    (hbad : mosaicEntryOk VALIDATE_POST_MOSAIC r = false) :
    (∃ msg, collectMosaicPaths VALIDATE_POST_MOSAIC bandPaths
        (pre ++ (band, r) :: post) =
      .error ⟨msg, band, ((bandPaths.lookup band).getD []).length⟩) ∧
    (∀ (results : List (String × MosaicResult)) (paths : List (String × String)),
      collectMosaicPaths VALIDATE_POST_MOSAIC bandPaths results = .ok paths →
      paths = results.map (fun x => (x.1, x.2.output_path.getD "")) ∧
      ∀ x ∈ results, mosaicEntryOk VALIDATE_POST_MOSAIC x.2 = true) :=
  ⟨collectMosaicPaths_error_first VALIDATE_POST_MOSAIC bandPaths band r pre post
      hpre hbad,
   collectMosaicPaths_ok VALIDATE_POST_MOSAIC bandPaths⟩

/-- Claim C9 witness: a failed B04 mosaic built from two scenes raises with
band B04 and scene count 2; a successful validated B08 mosaic returns its
output path. -/
theorem C9_mosaic_failure_raises_witness :
    (∃ msg, collectMosaicPaths VALIDATE_POST_MOSAIC
        [("B04", ["s1_B04.tif", "s2_B04.tif"])]
        [("B04", ⟨false, none, ⟨false, 0, "merge failed"⟩, 2, "merge failed"⟩)] =
      .error ⟨msg, "B04", 2⟩) ∧
    (∀ paths, collectMosaicPaths VALIDATE_POST_MOSAIC
        [("B08", ["s1_B08.tif", "s2_B08.tif"])]
        [("B08", ⟨true, some "mosaic_B08.tif", ⟨true, 97, "ok"⟩, 2, "ok"⟩)] =
          .ok paths →
      paths = [("B08", "mosaic_B08.tif")]) :=
  have h := C9_mosaic_failure_raises [("B04", ["s1_B04.tif", "s2_B04.tif"])]
    [] [] "B04" ⟨false, none, ⟨false, 0, "merge failed"⟩, 2, "merge failed"⟩
    (by intro x hx; cases hx) rfl
  have h2 := C9_mosaic_failure_raises [("B08", ["s1_B08.tif", "s2_B08.tif"])]
    [] [] "B04" ⟨false, none, ⟨false, 0, "merge failed"⟩, 2, "merge failed"⟩
    (by intro x hx; cases hx) rfl
  ⟨h.1, fun paths hp => by
    have := (h2.2 _ paths hp).1
    simpa using this⟩

/-- Claim C1 (code_bug): `clip_raster_to_geometry` accepts exactly two
positional arguments, so of the ten stage-2 band reads of `run_analysis`
only the first (baseline B04, called with two arguments) is a valid call;
the nine subsequent reads pass `target_shape` and `transform` as third and
fourth arguments and are rejected (a `TypeError` in Python), so no band is
ever resampled onto the canonical B04 grid. -/
theorem C1_resampling_calls_rejected :
    stage2ClipCalls.map (fun c => pythonCallAccepted clipRasterToGeometryParams c.2) =
      [true, false, false, false, false, false, false, false, false, false] := by
  rfl

/-- Claim C6 (confirmed): in the greedy coverage resolver, (1) the coverage
percent is monotonically non-decreasing across loop iterations: running any
extension of a candidate list never lowers the coverage; (2) a candidate
changes the selection only if its intersection with the boundary
contributes a non-empty region beyond the current covered union; (3) the
final coverage is at least the solo coverage of any scene selected along
the way, in particular of the first selected scene. -/
theorem C6_greedy_resolver (boundary : Geom)
    (minCoverage maxDateDiff maxCloud : ℚ) (maxScenes : ℕ)
    (hb : boundary ≠ ∅) :
    (∀ rows more : List CandidateRow,
      (findCoveringScenes boundary minCoverage maxDateDiff maxCloud maxScenes rows).coveragePercent ≤
      (findCoveringScenes boundary minCoverage maxDateDiff maxCloud maxScenes (rows ++ more)).coveragePercent) ∧
    (∀ (st : SelectState) (r : CandidateRow),
      (selectStep boundary minCoverage maxDateDiff maxCloud maxScenes st r).selected ≠ st.selected →
      ((boundary ∩ r.footprint) \ coveredSet st).Nonempty) ∧
    (∀ (pre post : List CandidateRow) (r : CandidateRow),
      (selectStep boundary minCoverage maxDateDiff maxCloud maxScenes
        (findCoveringScenes boundary minCoverage maxDateDiff maxCloud maxScenes pre) r).selected ≠
        (findCoveringScenes boundary minCoverage maxDateDiff maxCloud maxScenes pre).selected →
      soloCoverage boundary r ≤
        (findCoveringScenes boundary minCoverage maxDateDiff maxCloud maxScenes
          (pre ++ r :: post)).coveragePercent) := by
  refine ⟨?_, ?_, ?_⟩
  · intro rows more
    unfold findCoveringScenes
    rw [if_neg hb, if_neg hb, List.foldl_append]
    exact foldl_selectStep_mono boundary minCoverage maxDateDiff maxCloud maxScenes
      more _ (foldl_selectStep_inv boundary minCoverage maxDateDiff maxCloud maxScenes
        rows _ (initSelectState_inv boundary))
  · intro st r hchg
    exact selectStep_selected_change boundary minCoverage maxDateDiff maxCloud maxScenes
      st r hchg
  · intro pre post r hchg
    unfold findCoveringScenes at hchg ⊢
    rw [if_neg hb] at hchg
    rw [if_neg hb, List.foldl_append, List.foldl_cons]
    have hinvp := foldl_selectStep_inv boundary minCoverage maxDateDiff maxCloud
      maxScenes pre initSelectState (initSelectState_inv boundary)
    exact le_trans
      (selectStep_select_ge_solo boundary minCoverage maxDateDiff maxCloud maxScenes
        _ r hchg)
      (foldl_selectStep_mono boundary minCoverage maxDateDiff maxCloud maxScenes
        post _ (selectStep_inv boundary minCoverage maxDateDiff maxCloud maxScenes
          _ r hinvp))

/-- Claim C6 witness: on a two-cell boundary with two complementary
candidates, extending the run never lowers coverage, the first candidate
contributes new area at the initial state, and the final coverage is at
least the first selected scene's solo coverage. -/
theorem C6_greedy_resolver_witness :
    ((findCoveringScenes exampleBoundary 100 30 80 4 [exampleRowA]).coveragePercent ≤
      (findCoveringScenes exampleBoundary 100 30 80 4
        ([exampleRowA] ++ [exampleRowB])).coveragePercent) ∧
    ((exampleBoundary ∩ exampleRowA.footprint) \ coveredSet initSelectState).Nonempty ∧
    (soloCoverage exampleBoundary exampleRowA ≤
      (findCoveringScenes exampleBoundary 100 30 80 4
        ([] ++ exampleRowA :: [exampleRowB])).coveragePercent) :=
  have h := C6_greedy_resolver exampleBoundary 100 30 80 4 (by decide)
  ⟨h.1 [exampleRowA] [exampleRowB],
   h.2.1 initSelectState exampleRowA (by decide),
   h.2.2 [] [exampleRowB] exampleRowA (by decide)⟩

/-- Claim C7 (confirmed): the epoch grouping chains retained,
newest-first scenes: a scene joins the current epoch exactly when its time
distance to the epoch's anchor (the epoch's first scene's timestamp) is at
most the tolerance, and otherwise starts a new epoch with itself as anchor
(flushing the previous epoch); consequently every produced epoch is
non-empty and all of its scenes are within the tolerance of its first
scene; and scenes at minutes 0, 5 and 40 with tolerance 10 produce exactly
the two epochs of minutes 40 and of minutes 5 and 0. -/
theorem C7_epoch_grouping (tol maxCloud : ℚ) (htol : 0 ≤ tol) :
    (∀ q : ℚ, ratAbs q = |q|) ∧
    (∀ (st : EpochState) (s : EpochScene) (a : ℚ),
      retainScene maxCloud s = true → st.anchor = some a →
      ((ratAbs (a - s.acquiredAt) ≤ tol →
        (epochStep tol maxCloud st s).current = st.current ++ [s] ∧
        (epochStep tol maxCloud st s).epochs = st.epochs ∧
        (epochStep tol maxCloud st s).anchor = some a) ∧
       (tol < ratAbs (a - s.acquiredAt) →
        (epochStep tol maxCloud st s).current = [s] ∧
        (epochStep tol maxCloud st s).anchor = some s.acquiredAt ∧
        (epochStep tol maxCloud st s).epochs =
          st.epochs ++ (if st.current.isEmpty then [] else [st.current])))) ∧
    (∀ rows : List EpochScene, ∀ e ∈ buildEpochs tol maxCloud rows,
      e ≠ [] ∧ ∀ h, e.head? = some h →
        ∀ s ∈ e, ratAbs (h.acquiredAt - s.acquiredAt) ≤ tol) ∧
    buildEpochs 10 80 [sceneT40, sceneT5, sceneT0] =
      [[sceneT40], [sceneT5, sceneT0]] := by
  refine ⟨ratAbs_eq_abs, ?_, ?_, buildEpochs_example⟩
  · intro st s a hret ha
    constructor
    · intro hle
      simp [epochStep, hret, ha, hle]
    · intro hgt
      have hnle : ¬ ratAbs (a - s.acquiredAt) ≤ tol := not_le.mpr hgt
      simp [epochStep, hret, ha, hnle]
  · intro rows e he
    obtain ⟨ht, hne⟩ := buildEpochs_tight tol maxCloud htol rows e he
    refine ⟨hne, ?_⟩
    intro h hh s hs
    cases e with
    | nil => exact absurd rfl hne
    | cons h' rest =>
      have hh' : h' = h := by
        simpa using hh
      subst hh'
      exact ht s hs

/-- Claim C7 witness: at anchor minute 40, the scene at minute 5 (distance
35, beyond tolerance 10) starts a new epoch; within the produced epoch of
minutes 5 and 0 every scene is within tolerance of the head; and the
three-scene example yields exactly two epochs. -/
theorem C7_epoch_grouping_witness :
    (epochStep 10 80 ⟨[], [sceneT40], some 40⟩ sceneT5).current = [sceneT5] ∧
    (epochStep 10 80 ⟨[], [sceneT40], some 40⟩ sceneT5).anchor =
      some sceneT5.acquiredAt ∧
    ratAbs (sceneT5.acquiredAt - sceneT0.acquiredAt) ≤ 10 ∧
    buildEpochs 10 80 [sceneT40, sceneT5, sceneT0] =
      [[sceneT40], [sceneT5, sceneT0]] :=
  have h := C7_epoch_grouping 10 80 (by norm_num)
  have h1 := (h.2.1 ⟨[], [sceneT40], some 40⟩ sceneT5 40 retain_sceneT5 rfl).2
    (not_le.mp ratAbs_40_5_gt)
  have h2 := (h.2.2.1 [sceneT40, sceneT5, sceneT0] [sceneT5, sceneT0]
    (by rw [h.2.2.2]; exact List.mem_cons_of_mem _ (List.mem_singleton.mpr rfl))).2
    sceneT5 rfl sceneT0 (List.mem_cons_of_mem _ (List.mem_singleton.mpr rfl))
  ⟨h1.1, h1.2.1, h2, h.2.2.2⟩
